import Mathlib

/-!
Verification development for the AI-Voice-Studio-Pro repository.

The repository consists of four Python files:
  text_to_audio.py   (text_to_speech: Coqui TTS adapter),
  audio_to_audio.py  (transcribe_with_whisper, audio_to_audio: Whisper + TTS pipeline),
  main.py            (FastAPI endpoints api_text_to_audio and api_audio_to_audio),
  train_voice.py     (training orchestrator for the external RTVC repository).

The shallow embedding below models the external engines (Whisper, Coqui TTS,
the filesystem, and subprocesses) as oracle structures whose behaviour is a
parameter; the repository code itself is embedded as pure Lean functions that
sequence calls to those oracles in exactly the order the Python source does.
Python exceptions are modelled by the Except monad over a PyExc type that
distinguishes FileNotFoundError and FastAPI HTTPException from other
exceptions, mirroring the except clauses in main.py. Side effects relevant to
the claims (subprocess invocation, FS writes/deletes, pipeline phase calls)
are recorded as explicit traces.
-/

/-- Python whitespace predicate for the ASCII characters that `str.strip()`
removes (space, tab, newline, carriage return, vertical tab, form feed). -/
def isPySpace (c : Char) : Bool :=
  c = ' ' || c = '\t' || c = '\n' || c = '\r' || c = '\x0b' || c = '\x0c'

/-- Python `str.strip()`: remove leading and trailing whitespace
(audio_to_audio.py line 43: `result["text"].strip()`). -/
def pyStrip (s : String) : String :=
  ⟨((s.data.dropWhile isPySpace).reverse.dropWhile isPySpace).reverse⟩

/-- A string with no leading and no trailing Python whitespace. -/
def noSurroundingSpace (s : String) : Prop :=
  (∀ c, s.data.head? = some c → isPySpace c = false) ∧
  (∀ c, s.data.getLast? = some c → isPySpace c = false)

/-- `sub` occurs as a contiguous substring of `s`. -/
def strContains (s sub : String) : Prop :=
  ∃ l r : List Char, s.data = l ++ (sub.data ++ r)

/-- Index of the last occurrence of `c` in `l`, or -1 when absent
(Python `str.rfind`). -/
def rfindChar (l : List Char) (c : Char) : Int :=
  l.enum.foldl (fun acc q => if q.2 = c then (q.1 : Int) else acc) (-1)

/-- Extension component of CPython `posixpath.splitext` (genericpath._splitext
with sep = \x27/\x27, extsep = \x27.\x27): the part of `p` from its last dot
onward, provided that dot comes after the last slash and the basename does not
consist solely of leading dots up to it; otherwise the empty string.
Used by main.py line 88: `os.path.splitext(input_audio_file.filename)[1]`. -/
def splitextExt (p : String) : String :=
  let sepIndex : Int := rfindChar p.data '/'
  let dotIndex : Int := rfindChar p.data '.'
  if sepIndex < dotIndex then
    if ((p.data.drop (sepIndex + 1).toNat).take (dotIndex - sepIndex - 1).toNat).any
        (fun ch => ch ≠ '.') then
      ⟨p.data.drop dotIndex.toNat⟩
    else ""
  else ""

/-- CPython `posixpath.join` for two components: if `b` is absolute it wins;
if `a` is empty or ends with a slash they are concatenated; otherwise a slash
is inserted. -/
def ospJoin (a b : String) : String :=
  if b.data.head? = some '/' then b
  else if a.data = [] ∨ a.data.getLast? = some '/' then a ++ b
  else a ++ "/" ++ b

/-- A Python exception as discriminated by the except clauses in main.py:
`fileNotFound` models FileNotFoundError, `httpExc` models a raised
fastapi.HTTPException (which subclasses Exception and therefore is caught by
a generic `except Exception` handler of the same try block), `other` models
every other exception. The payload strings are the `str(e)` content. -/
inductive PyExc where
  | fileNotFound (msg : String)
  | httpExc (status : Nat) (detail : String)
  | other (msg : String)
deriving DecidableEq

/-- Python `str(e)` for a modelled exception. For HTTPException this follows
starlette, whose `HTTPException.__str__` returns `f"{status_code}: {detail}"`. -/
def strOfExc : PyExc → String
  | .fileNotFound m => m
  | .httpExc st d => toString st ++ ": " ++ d
  | .other m => m

/-- What an endpoint hands back to the framework: either a FileResponse
(main.py lines 63-67 and 121-125) or a raised HTTPException that the
framework turns into an error response with the given status and detail. -/
inductive Response where
  | fileResponse (path filename media_type : String)
  | httpError (status : Nat) (detail : String)
deriving DecidableEq

/-- Filesystem actions an endpoint performs on the scratch directory. -/
inductive FSAction where
  | write (path : String)
  | delete (path : String)
deriving DecidableEq

/-- Replay a list of filesystem actions over a set of existing files. -/
def applyActs (fs : List String) : List FSAction → List String
  | [] => fs
  | FSAction.write p :: rest => applyActs (p :: fs) rest
  | FSAction.delete p :: rest => applyActs (fs.filter (fun q => q ≠ p)) rest

/-- main.py line 29. -/
def TEMP_DIR : String := "temp_audio_outputs"

/-- main.py line 44: `f"tts_output_{request_id}.wav"`. -/
def ttsOutputFilename (request_id : String) : String :=
  "tts_output_" ++ request_id ++ ".wav"

/-- main.py line 45: `os.path.join(TEMP_DIR, unique_filename)`. -/
def ttsOutputPath (request_id : String) : String :=
  ospJoin TEMP_DIR (ttsOutputFilename request_id)

/-- main.py lines 88-89: `f"input_{request_id}{input_suffix}"` where
`input_suffix = os.path.splitext(input_audio_file.filename)[1]`. -/
def a2aInputFilename (request_id upload_filename : String) : String :=
  "input_" ++ request_id ++ splitextExt upload_filename

/-- main.py line 90: `os.path.join(TEMP_DIR, input_filename_unique)`. -/
def a2aInputPath (request_id upload_filename : String) : String :=
  ospJoin TEMP_DIR (a2aInputFilename request_id upload_filename)

/-- main.py line 101: `f"a2a_output_{request_id}.wav"`. -/
def a2aOutputFilename (request_id : String) : String :=
  "a2a_output_" ++ request_id ++ ".wav"

/-- main.py line 102: `os.path.join(TEMP_DIR, output_filename_unique)`. -/
def a2aOutputPath (request_id : String) : String :=
  ospJoin TEMP_DIR (a2aOutputFilename request_id)

/-- Oracle for the Coqui TTS library, parametrised by the waveform type `W`.
`load m` is the constructor call `TTS(m)`, `tts m text speaker speed` is the
method call `instance.tts(text, speaker=..., speed=...)` on the instance
loaded for model `m`, and `save_wav m wav path` is `instance.save_wav(wav,
path)`. Each call either returns or raises. -/
structure TTSEngine (W : Type) where
  load : String → Except PyExc Unit
  tts : String → String → Int → Rat → Except PyExc W
  save_wav : String → W → String → Except PyExc Unit

/-- Oracle for the Whisper library: `load_model size` is
`whisper.load_model(size)` and `transcribe size path` is
`model.transcribe(path)`, returning the raw (unstripped) `result["text"]`
paired with `result["language"]`. -/
structure WhisperEngine where
  load_model : String → Except PyExc Unit
  transcribe : String → String → Except PyExc (String × String)

/-- text_to_audio.py, `text_to_speech(model_name, text, speaker_idx,
output_path, speed)`: load the TTS model, synthesize the text, save the WAV.
Every failure is logged and re-raised in the source, hence propagates. -/
def text_to_speech {W : Type} (T : TTSEngine W) (model_name text : String)
    (speaker_idx : Int) (output_path : String) (speed : Rat) : Except PyExc Unit :=
  match T.load model_name with
  | .error e => .error e
  | .ok _ =>
    match T.tts model_name text speaker_idx speed with
    | .error e => .error e
    | .ok wav => T.save_wav model_name wav output_path

/-- Observable pipeline events of audio_to_audio.py, in invocation order. -/
inductive A2AEvent where
  | whisperLoadCall (model_size : String)
  | transcribeCall (model_size audio_path : String)
  | ttsLoadCall (model : String)
  | synthCall (text : String) (speaker : Int) (speed : Rat)
  | saveWavCall (output_path : String)
deriving DecidableEq

/-- audio_to_audio.py, `transcribe_with_whisper(model_size, audio_path)`:
load the Whisper model (re-raising on failure), transcribe (re-raising on
failure), and return `(result["text"].strip(), result["language"])`.
The second component of the result pair records the calls made. -/
def transcribe_with_whisper (Wh : WhisperEngine) (model_size audio_path : String) :
    Except PyExc (String × String) × List A2AEvent :=
  match Wh.load_model model_size with
  | .error e => (.error e, [A2AEvent.whisperLoadCall model_size])
  | .ok _ =>
    match Wh.transcribe model_size audio_path with
    | .error e =>
      (.error e, [A2AEvent.whisperLoadCall model_size,
                  A2AEvent.transcribeCall model_size audio_path])
    | .ok (t, lang) =>
      (.ok (pyStrip t, lang),
       [A2AEvent.whisperLoadCall model_size,
        A2AEvent.transcribeCall model_size audio_path])

/-- audio_to_audio.py, `audio_to_audio(input_audio, tts_model, speaker_idx,
output_path, speed, whisper_model_size)`:
1) transcribe `input_audio` with Whisper, binding the text and discarding the
   detected language (`texto_transcrito, _ = transcribe_with_whisper(...)`),
2) load the TTS model named by the caller-supplied `tts_model`,
3) synthesize the transcribed text, 4) save the WAV to `output_path`.
Each step re-raises its failures. The second component is the call trace. -/
def audio_to_audio {W : Type} (Wh : WhisperEngine) (T : TTSEngine W)
    (input_audio tts_model : String) (speaker_idx : Int) (output_path : String)
    (speed : Rat) (whisper_model_size : String) : Except PyExc Unit × List A2AEvent :=
  match transcribe_with_whisper Wh whisper_model_size input_audio with
  | (.error e, tr) => (.error e, tr)
  | (.ok (texto_transcrito, _), tr) =>
    match T.load tts_model with
    | .error e => (.error e, tr ++ [A2AEvent.ttsLoadCall tts_model])
    | .ok _ =>
      match T.tts tts_model texto_transcrito speaker_idx speed with
      | .error e =>
        (.error e, tr ++ [A2AEvent.ttsLoadCall tts_model,
                          A2AEvent.synthCall texto_transcrito speaker_idx speed])
      | .ok wav =>
        match T.save_wav tts_model wav output_path with
        | .error e =>
          (.error e, tr ++ [A2AEvent.ttsLoadCall tts_model,
                            A2AEvent.synthCall texto_transcrito speaker_idx speed,
                            A2AEvent.saveWavCall output_path])
        | .ok _ =>
          (.ok (), tr ++ [A2AEvent.ttsLoadCall tts_model,
                          A2AEvent.synthCall texto_transcrito speaker_idx speed,
                          A2AEvent.saveWavCall output_path])

/-- Forget the language component of a transcription outcome. -/
def exceptFst (e : Except PyExc (String × String)) : Except PyExc String :=
  match e with
  | .error err => .error err
  | .ok (t, _) => .ok t

/-- main.py line 70: detail of the 400 raised for FileNotFoundError in
/text-to-audio/. -/
def ttsNotFoundDetail (model_name m : String) : String :=
  "Modelo TTS \x27" ++ model_name ++
    "\x27 não encontrado ou caminho inválido. Verifique o nome do modelo. Detalhe: " ++ m

/-- main.py line 73: detail of the 500 raised for any other exception in
/text-to-audio/. -/
def ttsInternalDetail (emsg : String) : String :=
  "Ocorreu um erro interno ao processar a solicitação de texto para áudio: " ++ emsg

/-- main.py line 128: detail of the 400 raised for FileNotFoundError in
/audio-to-audio/. -/
def a2aNotFoundDetail (tts_model whisper_model_size m : String) : String :=
  "Modelo TTS \x27" ++ tts_model ++ "\x27 ou Whisper (tamanho \x27" ++
    whisper_model_size ++
    "\x27) não encontrado ou caminho inválido. Verifique os nomes. Detalhe: " ++ m

/-- main.py line 131: detail of the 500 raised for any other exception in
/audio-to-audio/. -/
def a2aInternalDetail (emsg : String) : String :=
  "Ocorreu um erro interno ao processar a solicitação de áudio para áudio: " ++ emsg

/-- The two except clauses of api_text_to_audio (main.py lines 68-73):
FileNotFoundError becomes a 400 naming the model, anything else (including an
HTTPException raised inside the try body, since HTTPException subclasses
Exception) becomes a 500 wrapping `str(e)`. -/
def tryExceptText (model_name : String) : Except PyExc Response → Response
  | .ok r => r
  | .error (.fileNotFound m) => .httpError 400 (ttsNotFoundDetail model_name m)
  | .error e => .httpError 500 (ttsInternalDetail (strOfExc e))

/-- main.py, api_text_to_audio: build the unique output path, run
text_to_speech, raise a 500 HTTPException if the output file does not exist
afterwards (`outputExists` is the `os.path.exists(output_path)` oracle),
otherwise return the FileResponse; exceptions go through the two except
clauses. `request_id` models the `uuid.uuid4()` drawn for the request. -/
def api_text_to_audio {W : Type} (T : TTSEngine W) (text model_name : String)
    (speaker_idx : Int) (speed : Rat) (request_id : String)
    (outputExists : Bool) : Response :=
  tryExceptText model_name
    (match text_to_speech T model_name text speaker_idx (ttsOutputPath request_id) speed with
     | .error e => .error e
     | .ok _ =>
       if outputExists = false then
         .error (.httpExc 500 "Falha ao gerar o arquivo de áudio a partir do texto.")
       else
         .ok (.fileResponse (ttsOutputPath request_id) (ttsOutputFilename request_id)
               "audio/wav"))

/-- The try body of api_audio_to_audio (main.py lines 87-125) together with
the filesystem actions it performs. `saveUpload` is the outcome of
`open(temp_input_path, "wb")` + `shutil.copyfileobj` (on success the input
file has been written); `existsInputAfterSave` and `existsOutput` are the two
`os.path.exists` oracle reads. A missing input file after saving raises a 500
HTTPException; then the pipeline runs; a missing output file after a
successful pipeline call raises another 500 HTTPException; otherwise the
FileResponse is produced. -/
def a2aBody {W : Type} (Wh : WhisperEngine) (T : TTSEngine W)
    (upload_filename tts_model : String) (speaker_idx : Int) (speed : Rat)
    (whisper_model_size request_id : String) (saveUpload : Except PyExc Unit)
    (existsInputAfterSave existsOutput : Bool) :
    Except PyExc Response × List FSAction :=
  match saveUpload with
  | .error e => (.error e, [])
  | .ok _ =>
    if existsInputAfterSave = false then
      (.error (.httpExc 500 "Falha ao salvar o arquivo de áudio de entrada."),
       [FSAction.write (a2aInputPath request_id upload_filename)])
    else
      match (audio_to_audio Wh T (a2aInputPath request_id upload_filename) tts_model
              speaker_idx (a2aOutputPath request_id) speed whisper_model_size).1 with
      | .error e => (.error e, [FSAction.write (a2aInputPath request_id upload_filename)])
      | .ok _ =>
        if existsOutput = false then
          (.error (.httpExc 500 "Falha ao processar e gerar o novo arquivo de áudio."),
           [FSAction.write (a2aInputPath request_id upload_filename)])
        else
          (.ok (.fileResponse (a2aOutputPath request_id) (a2aOutputFilename request_id)
                 "audio/wav"),
           [FSAction.write (a2aInputPath request_id upload_filename)])

/-- The two except clauses of api_audio_to_audio (main.py lines 126-131). -/
def tryExceptA2A (tts_model whisper_model_size : String) : Except PyExc Response → Response
  | .ok r => r
  | .error (.fileNotFound m) =>
    .httpError 400 (a2aNotFoundDetail tts_model whisper_model_size m)
  | .error e => .httpError 500 (a2aInternalDetail (strOfExc e))

/-- main.py, api_audio_to_audio: the try body, the except clauses, and the
finally block. The finally block of the source (lines 132-142) performs no
filesystem action (the `os.remove` is commented out; the branch body is
`pass`), so the action list of the body is returned unchanged. -/
def api_audio_to_audio {W : Type} (Wh : WhisperEngine) (T : TTSEngine W)
    (upload_filename tts_model : String) (speaker_idx : Int) (speed : Rat)
    (whisper_model_size request_id : String) (saveUpload : Except PyExc Unit)
    (existsInputAfterSave existsOutput : Bool) : Response × List FSAction :=
  (tryExceptA2A tts_model whisper_model_size
     (a2aBody Wh T upload_filename tts_model speaker_idx speed whisper_model_size
        request_id saveUpload existsInputAfterSave existsOutput).1,
   (a2aBody Wh T upload_filename tts_model speaker_idx speed whisper_model_size
      request_id saveUpload existsInputAfterSave existsOutput).2)

/-- Oracle for train_voice.py: `isfile` and `isdir` are the os.path checks,
`makedirsOk` tells whether `os.makedirs(path, exist_ok=True)` succeeds,
`runExit cmd` is the exit status of `subprocess.check_call(cmd)` (`none`
models FileNotFoundError for a missing executable), `pythonExe` is
`sys.executable` and `scriptDir` is the directory of the script. -/
structure TrainEnv where
  isfile : String → Bool
  isdir : String → Bool
  makedirsOk : String → Bool
  runExit : List String → Option Int
  pythonExe : String
  scriptDir : String

/-- A child-process invocation performed by the training orchestrator. -/
inductive TrainEvent where
  | subprocessCall (cmd : List String) (cwd : String)
deriving DecidableEq

/-- train_voice.py, `run_subprocess(cmd, cwd)`: `subprocess.check_call`
returns on exit status 0; a non-zero status raises CalledProcessError, caught
and turned into `sys.exit(e.returncode)`; a missing executable raises
FileNotFoundError, turned into `sys.exit(1)`. The result is paired with the
one subprocess invocation it performs. -/
def run_subprocess (env : TrainEnv) (cmd : List String) (cwd : String) :
    Except Int Unit × List TrainEvent :=
  (match env.runExit cmd with
   | none => .error 1
   | some c => if c = 0 then .ok () else .error c,
   [TrainEvent.subprocessCall cmd cwd])

/-- train_voice.py, `ensure_directory(path)`: `os.makedirs(path,
exist_ok=True)`, exiting with status 1 on failure. -/
def ensure_directory (env : TrainEnv) (path : String) : Except Int Unit :=
  if env.makedirsOk path then .ok () else .error 1

/-- train_voice.py line 55. -/
def encoderScriptPath (rtvc_root : String) : String :=
  ospJoin (ospJoin rtvc_root "encoder") "encoder_train.py"

/-- train_voice.py line 60. -/
def encoderOutputDir (rtvc_root : String) : String :=
  ospJoin (ospJoin rtvc_root "encoder") "saved_models"

/-- train_voice.py line 79. -/
def synthesizerScriptPath (rtvc_root : String) : String :=
  ospJoin (ospJoin rtvc_root "synthesizer") "synthesizer_train.py"

/-- train_voice.py line 84. -/
def synthesizerOutputDir (rtvc_root : String) : String :=
  ospJoin (ospJoin rtvc_root "synthesizer") "saved_models"

/-- train_voice.py line 103. -/
def vocoderScriptPath (rtvc_root : String) : String :=
  ospJoin (ospJoin rtvc_root "vocoder") "vocoder_train.py"

/-- train_voice.py line 108. -/
def vocoderOutputDir (rtvc_root : String) : String :=
  ospJoin (ospJoin rtvc_root "vocoder") "saved_models"

/-- train_voice.py lines 63-68: the encoder phase command line. -/
def encoderCmd (env : TrainEnv) (rtvc_root dataset_root : String)
    (encoder_epochs : Int) : List String :=
  [env.pythonExe, encoderScriptPath rtvc_root,
   "--datasets_root", dataset_root,
   "--save_path", encoderOutputDir rtvc_root,
   "--training_epochs", toString encoder_epochs]

/-- train_voice.py lines 87-92: the synthesizer phase command line. -/
def synthesizerCmd (env : TrainEnv) (rtvc_root dataset_root : String)
    (synthesizer_epochs : Int) : List String :=
  [env.pythonExe, synthesizerScriptPath rtvc_root,
   "--datasets_root", dataset_root,
   "--save_path", synthesizerOutputDir rtvc_root,
   "--n_epochs", toString synthesizer_epochs]

/-- train_voice.py lines 111-115: the vocoder phase command line. -/
def vocoderCmd (env : TrainEnv) (rtvc_root : String) (vocoder_epochs : Int) : List String :=
  [env.pythonExe, vocoderScriptPath rtvc_root,
   "--save_path", vocoderOutputDir rtvc_root,
   "--n_epochs", toString vocoder_epochs]

/-- train_voice.py, `train_encoder(rtvc_root, dataset_root, encoder_epochs)`:
exit 1 if the entry script is missing, ensure the output directory, then run
the phase as a child process with cwd `rtvc_root`. -/
def train_encoder (env : TrainEnv) (rtvc_root dataset_root : String)
    (encoder_epochs : Int) : Except Int Unit × List TrainEvent :=
  if env.isfile (encoderScriptPath rtvc_root) = false then (.error 1, [])
  else
    match ensure_directory env (encoderOutputDir rtvc_root) with
    | .error c => (.error c, [])
    | .ok _ => run_subprocess env (encoderCmd env rtvc_root dataset_root encoder_epochs) rtvc_root

/-- train_voice.py, `train_synthesizer(rtvc_root, dataset_root,
synthesizer_epochs)`. -/
def train_synthesizer (env : TrainEnv) (rtvc_root dataset_root : String)
    (synthesizer_epochs : Int) : Except Int Unit × List TrainEvent :=
  if env.isfile (synthesizerScriptPath rtvc_root) = false then (.error 1, [])
  else
    match ensure_directory env (synthesizerOutputDir rtvc_root) with
    | .error c => (.error c, [])
    | .ok _ =>
      run_subprocess env (synthesizerCmd env rtvc_root dataset_root synthesizer_epochs) rtvc_root

/-- train_voice.py, `train_vocoder(rtvc_root, vocoder_epochs)`: note the
function takes no dataset argument and its command line carries none. -/
def train_vocoder (env : TrainEnv) (rtvc_root : String) (vocoder_epochs : Int) :
    Except Int Unit × List TrainEvent :=
  if env.isfile (vocoderScriptPath rtvc_root) = false then (.error 1, [])
  else
    match ensure_directory env (vocoderOutputDir rtvc_root) with
    | .error c => (.error c, [])
    | .ok _ => run_subprocess env (vocoderCmd env rtvc_root vocoder_epochs) rtvc_root

/-- Sequence two traced computations: the second runs only when the first
succeeded, mirroring that `sys.exit` terminates the Python process. -/
def seqT (a b : Except Int Unit × List TrainEvent) : Except Int Unit × List TrainEvent :=
  match a with
  | (.error c, tr) => (.error c, tr)
  | (.ok _, tr) => (b.1, tr ++ b.2)

/-- train_voice.py line 160: `os.path.join(script_dir, "Real-Time-Voice-Cloning")`. -/
def rtvcRootOf (env : TrainEnv) : String :=
  ospJoin env.scriptDir "Real-Time-Voice-Cloning"

/-- train_voice.py, the `__main__` block after argument parsing: exit 1 if
`--dataset_root` is not an existing directory, exit 1 if the RTVC checkout is
missing, then run the three phases strictly in sequence. -/
def train_main (env : TrainEnv) (dataset_root : String)
    (encoder_epochs synthesizer_epochs vocoder_epochs : Int) :
    Except Int Unit × List TrainEvent :=
  if env.isdir dataset_root = false then (.error 1, [])
  else if env.isdir (rtvcRootOf env) = false then (.error 1, [])
  else
    seqT (train_encoder env (rtvcRootOf env) dataset_root encoder_epochs)
      (seqT (train_synthesizer env (rtvcRootOf env) dataset_root synthesizer_epochs)
        (train_vocoder env (rtvcRootOf env) vocoder_epochs))

/-- Concrete TTS oracle that always succeeds (waveform type Unit). -/
def engineOK : TTSEngine Unit :=
  { load := fun _ => .ok (), tts := fun _ _ _ _ => .ok (),
    save_wav := fun _ _ _ => .ok () }

/-- Concrete TTS oracle whose model load raises FileNotFoundError. -/
def engineFNF : TTSEngine Unit :=
  { load := fun _ => .error (.fileNotFound "nf"), tts := fun _ _ _ _ => .error (.fileNotFound "nf"),
    save_wav := fun _ _ _ => .error (.fileNotFound "nf") }

/-- Concrete TTS oracle whose model load raises a generic exception. -/
def engineBoom : TTSEngine Unit :=
  { load := fun _ => .error (.other "boom"), tts := fun _ _ _ _ => .error (.other "boom"),
    save_wav := fun _ _ _ => .error (.other "boom") }

/-- Concrete Whisper oracle that transcribes everything as "  hello  ". -/
def whisperOK : WhisperEngine :=
  { load_model := fun _ => .ok (), transcribe := fun _ _ => .ok ("  hello  ", "en") }

/-- Concrete Whisper oracle that transcribes everything as whitespace only. -/
def whisperWS : WhisperEngine :=
  { load_model := fun _ => .ok (), transcribe := fun _ _ => .ok ("  ", "en") }

/-- Concrete Whisper oracle whose model load raises FileNotFoundError. -/
def whisperFNF : WhisperEngine :=
  { load_model := fun _ => .error (.fileNotFound "nf"), transcribe := fun _ _ => .error (.fileNotFound "nf") }

/-- Concrete training environment in which everything exists and every
subprocess exits 0. -/
def trainEnvOK : TrainEnv :=
  { isfile := fun _ => true, isdir := fun _ => true, makedirsOk := fun _ => true,
    runExit := fun _ => some 0, pythonExe := "python3", scriptDir := "SRC" }

/-- Concrete training environment whose encoder phase exits with status 7. -/
def trainEnvEnc7 : TrainEnv :=
  { isfile := fun _ => true, isdir := fun _ => true, makedirsOk := fun _ => true,
    runExit := fun cmd => if cmd = encoderCmd trainEnvOK (rtvcRootOf trainEnvOK) "d" 1
                          then some 7 else some 0,
    pythonExe := "python3", scriptDir := "SRC" }

/-- Concrete training environment with no dataset directory. -/
def trainEnvNoDs : TrainEnv :=
  { isfile := fun _ => true, isdir := fun p => p ≠ "d", makedirsOk := fun _ => true,
    runExit := fun _ => some 0, pythonExe := "python3", scriptDir := "SRC" }

deriving instance DecidableEq for Except

/-- Claim C6: if the training orchestrator is given a --dataset_root path that
is not an existing directory, it exits with status 1 (non-zero) before any
subprocess is invoked (the invocation trace is empty). -/
theorem C6_dataset_root_missing (env : TrainEnv) (ds : String) (e s v : Int)
    (h : env.isdir ds = false) :
    train_main env ds e s v = (.error 1, []) ∧
    ∀ cmd cwd, TrainEvent.subprocessCall cmd cwd ∉ (train_main env ds e s v).2 := by
  have hm : train_main env ds e s v = (.error 1, []) := by
    simp [train_main, h]
  exact ⟨hm, by simp [hm]⟩

/-- Witness for C6 at a concrete environment whose dataset directory "d" is
missing. -/
theorem C6_witness :
    trainEnvNoDs.isdir "d" = false ∧
    train_main trainEnvNoDs "d" 1 2 3 = (.error 1, []) := by
  refine ⟨by decide, ?_⟩
  exact (C6_dataset_root_missing trainEnvNoDs "d" 1 2 3 (by decide)).1

/-- Claim C4: with the dataset and RTVC directories present, (i) a missing
encoder entry script aborts the whole run with exit 1 and an empty subprocess
trace; (ii)-(iii) a missing synthesizer or vocoder entry script makes that
phase exit 1 without invoking anything; (iv) an encoder-phase failure with
code c aborts the run with exit code c and a trace containing only the
encoder phase events, so the synthesizer and vocoder are never started;
(v)-(vi) the same for failures of the later phases, the trace ending at the
failing phase; (vii) run_subprocess propagates a non-zero child exit code
unchanged. -/
theorem C4_training_sequential (env : TrainEnv) (ds : String) (e s v : Int)
    (hds : env.isdir ds = true) (hr : env.isdir (rtvcRootOf env) = true) :
    (env.isfile (encoderScriptPath (rtvcRootOf env)) = false →
       train_main env ds e s v = (.error 1, [])) ∧
    (env.isfile (synthesizerScriptPath (rtvcRootOf env)) = false →
       train_synthesizer env (rtvcRootOf env) ds s = (.error 1, [])) ∧
    (env.isfile (vocoderScriptPath (rtvcRootOf env)) = false →
       train_vocoder env (rtvcRootOf env) v = (.error 1, [])) ∧
    (∀ c, (train_encoder env (rtvcRootOf env) ds e).1 = .error c →
       train_main env ds e s v = (.error c, (train_encoder env (rtvcRootOf env) ds e).2)) ∧
    (∀ c, (train_encoder env (rtvcRootOf env) ds e).1 = .ok () →
          (train_synthesizer env (rtvcRootOf env) ds s).1 = .error c →
       train_main env ds e s v =
         (.error c, (train_encoder env (rtvcRootOf env) ds e).2 ++
                    (train_synthesizer env (rtvcRootOf env) ds s).2)) ∧
    (∀ c, (train_encoder env (rtvcRootOf env) ds e).1 = .ok () →
          (train_synthesizer env (rtvcRootOf env) ds s).1 = .ok () →
          (train_vocoder env (rtvcRootOf env) v).1 = .error c →
       train_main env ds e s v =
         (.error c, (train_encoder env (rtvcRootOf env) ds e).2 ++
                    ((train_synthesizer env (rtvcRootOf env) ds s).2 ++
                     (train_vocoder env (rtvcRootOf env) v).2))) ∧
    (∀ cmd cwd c, env.runExit cmd = some c → c ≠ 0 →
       run_subprocess env cmd cwd = (.error c, [TrainEvent.subprocessCall cmd cwd])) := by
  refine ⟨?_, ?_, ?_, ?_, ?_, ?_, ?_⟩
  · intro h
    have henc : train_encoder env (rtvcRootOf env) ds e = (.error 1, []) := by
      simp [train_encoder, h]
    simp [train_main, hds, hr, henc, seqT]
  · intro h
    simp [train_synthesizer, h]
  · intro h
    simp [train_vocoder, h]
  · intro c hc
    rcases hEnc : train_encoder env (rtvcRootOf env) ds e with ⟨r, tr⟩
    rw [hEnc] at hc
    simp only at hc
    subst hc
    simp [train_main, hds, hr, hEnc, seqT]
  · intro c hc1 hc2
    rcases hEnc : train_encoder env (rtvcRootOf env) ds e with ⟨r1, tr1⟩
    rcases hSyn : train_synthesizer env (rtvcRootOf env) ds s with ⟨r2, tr2⟩
    rw [hEnc] at hc1
    rw [hSyn] at hc2
    simp only at hc1 hc2
    subst hc1; subst hc2
    simp [train_main, hds, hr, hEnc, hSyn, seqT]
  · intro c hc1 hc2 hc3
    rcases hEnc : train_encoder env (rtvcRootOf env) ds e with ⟨r1, tr1⟩
    rcases hSyn : train_synthesizer env (rtvcRootOf env) ds s with ⟨r2, tr2⟩
    rcases hVoc : train_vocoder env (rtvcRootOf env) v with ⟨r3, tr3⟩
    rw [hEnc] at hc1
    rw [hSyn] at hc2
    rw [hVoc] at hc3
    simp only at hc1 hc2 hc3
    subst hc1; subst hc2; subst hc3
    simp [train_main, hds, hr, hEnc, hSyn, hVoc, seqT]
  · intro cmd cwd c h hc
    simp [run_subprocess, h, hc]

/-- Witness for C4 at a concrete environment whose encoder phase exits with
status 7: the run aborts with exit code 7 and only the encoder events in the
trace. -/
theorem C4_witness :
    (train_encoder trainEnvEnc7 (rtvcRootOf trainEnvEnc7) "d" 1).1 = .error 7 ∧
    train_main trainEnvEnc7 "d" 1 2 3 =
      (.error 7, (train_encoder trainEnvEnc7 (rtvcRootOf trainEnvEnc7) "d" 1).2) := by
  have h : (train_encoder trainEnvEnc7 (rtvcRootOf trainEnvEnc7) "d" 1).1 = .error 7 := by
    decide
  exact ⟨h, (C4_training_sequential trainEnvEnc7 "d" 1 2 3 (by decide) (by decide)).2.2.2.1 7 h⟩

/-- Counterexample to claim C5 as stated: in a concrete run of the training
orchestrator with dataset root "DATASETDIR", the third (vocoder) child
process is invoked without the dataset path among its arguments and without
any --datasets_root flag, so not every phase receives the dataset path. -/
theorem C5_counterexample :
    (train_main trainEnvOK "DATASETDIR" 1 2 3).2 =
      [TrainEvent.subprocessCall
        ["python3", "SRC/Real-Time-Voice-Cloning/encoder/encoder_train.py",
         "--datasets_root", "DATASETDIR",
         "--save_path", "SRC/Real-Time-Voice-Cloning/encoder/saved_models",
         "--training_epochs", "1"] "SRC/Real-Time-Voice-Cloning",
       TrainEvent.subprocessCall
        ["python3", "SRC/Real-Time-Voice-Cloning/synthesizer/synthesizer_train.py",
         "--datasets_root", "DATASETDIR",
         "--save_path", "SRC/Real-Time-Voice-Cloning/synthesizer/saved_models",
         "--n_epochs", "2"] "SRC/Real-Time-Voice-Cloning",
       TrainEvent.subprocessCall
        ["python3", "SRC/Real-Time-Voice-Cloning/vocoder/vocoder_train.py",
         "--save_path", "SRC/Real-Time-Voice-Cloning/vocoder/saved_models",
         "--n_epochs", "3"] "SRC/Real-Time-Voice-Cloning"] ∧
    "DATASETDIR" ∉
      ["python3", "SRC/Real-Time-Voice-Cloning/vocoder/vocoder_train.py",
       "--save_path", "SRC/Real-Time-Voice-Cloning/vocoder/saved_models",
       "--n_epochs", "3"] ∧
    "--datasets_root" ∉
      ["python3", "SRC/Real-Time-Voice-Cloning/vocoder/vocoder_train.py",
       "--save_path", "SRC/Real-Time-Voice-Cloning/vocoder/saved_models",
       "--n_epochs", "3"] := by
  refine ⟨by decide, by decide, by decide⟩

/-- Claim C5 as amended: each phase whose entry script exists and whose
output directory can be created performs exactly one blocking child-process
invocation with cwd at the RTVC root; the encoder and synthesizer command
lines carry the dataset path, an output directory and an epoch count, while
the vocoder command line carries only an output directory and an iteration
count (no dataset path). -/
theorem C5_phase_invocations (env : TrainEnv) (r ds : String) (e s v : Int)
    (hf1 : env.isfile (encoderScriptPath r) = true)
    (hm1 : env.makedirsOk (encoderOutputDir r) = true)
    (hf2 : env.isfile (synthesizerScriptPath r) = true)
    (hm2 : env.makedirsOk (synthesizerOutputDir r) = true)
    (hf3 : env.isfile (vocoderScriptPath r) = true)
    (hm3 : env.makedirsOk (vocoderOutputDir r) = true) :
    (train_encoder env r ds e).2 =
      [TrainEvent.subprocessCall
        [env.pythonExe, encoderScriptPath r, "--datasets_root", ds,
         "--save_path", encoderOutputDir r, "--training_epochs", toString e] r] ∧
    (train_synthesizer env r ds s).2 =
      [TrainEvent.subprocessCall
        [env.pythonExe, synthesizerScriptPath r, "--datasets_root", ds,
         "--save_path", synthesizerOutputDir r, "--n_epochs", toString s] r] ∧
    (train_vocoder env r v).2 =
      [TrainEvent.subprocessCall
        [env.pythonExe, vocoderScriptPath r, "--save_path", vocoderOutputDir r,
         "--n_epochs", toString v] r] := by
  refine ⟨?_, ?_, ?_⟩
  · simp [train_encoder, hf1, ensure_directory, hm1, run_subprocess, encoderCmd]
  · simp [train_synthesizer, hf2, ensure_directory, hm2, run_subprocess, synthesizerCmd]
  · simp [train_vocoder, hf3, ensure_directory, hm3, run_subprocess, vocoderCmd]

/-- Witness for the amended C5 at a concrete environment. -/
theorem C5_witness :
    trainEnvOK.isfile (encoderScriptPath "R") = true ∧
    (train_vocoder trainEnvOK "R" 3).2 =
      [TrainEvent.subprocessCall
        ["python3", "R/vocoder/vocoder_train.py", "--save_path", "R/vocoder/saved_models",
         "--n_epochs", "3"] "R"] := by
  refine ⟨by decide, ?_⟩
  have h := (C5_phase_invocations trainEnvOK "R" "d" 1 2 3 (by decide) (by decide)
    (by decide) (by decide) (by decide) (by decide)).2.2
  rw [h]
  decide

theorem strData_append (a b : String) : (a ++ b).data = a.data ++ b.data := rfl

theorem strExt (a b : String) (h : a.data = b.data) : a = b :=
  congrArg String.mk h

theorem strAppend_assoc (a b c : String) : a ++ b ++ c = a ++ (b ++ c) := by
  apply strExt; simp [strData_append]

theorem strAppend_empty (a : String) : a ++ "" = a := by
  apply strExt; simp [strData_append]

theorem strContains_of_decomp (s pre mid post : String) (h : s = pre ++ mid ++ post) :
    strContains s mid :=
  ⟨pre.data, post.data, by subst h; simp [strData_append]⟩

theorem ttsNotFoundDetail_contains_model (model_name m : String) :
    strContains (ttsNotFoundDetail model_name m) model_name := by
  apply strContains_of_decomp _ "Modelo TTS \x27" model_name
    ("\x27 não encontrado ou caminho inválido. Verifique o nome do modelo. Detalhe: " ++ m)
  simp [ttsNotFoundDetail, strAppend_assoc]

theorem ttsInternalDetail_contains_msg (emsg : String) :
    strContains (ttsInternalDetail emsg) emsg := by
  apply strContains_of_decomp _
    "Ocorreu um erro interno ao processar a solicitação de texto para áudio: " emsg ""
  simp [ttsInternalDetail, strAppend_empty]

theorem a2aNotFoundDetail_contains_model (tts_model msize m : String) :
    strContains (a2aNotFoundDetail tts_model msize m) tts_model := by
  apply strContains_of_decomp _ "Modelo TTS \x27" tts_model
    ("\x27 ou Whisper (tamanho \x27" ++ msize ++
     "\x27) não encontrado ou caminho inválido. Verifique os nomes. Detalhe: " ++ m)
  simp [a2aNotFoundDetail, strAppend_assoc]

theorem a2aNotFoundDetail_contains_msize (tts_model msize m : String) :
    strContains (a2aNotFoundDetail tts_model msize m) msize := by
  apply strContains_of_decomp _ ("Modelo TTS \x27" ++ tts_model ++ "\x27 ou Whisper (tamanho \x27")
    msize ("\x27) não encontrado ou caminho inválido. Verifique os nomes. Detalhe: " ++ m)
  simp [a2aNotFoundDetail, strAppend_assoc]

theorem a2aInternalDetail_contains_msg (emsg : String) :
    strContains (a2aInternalDetail emsg) emsg := by
  apply strContains_of_decomp _
    "Ocorreu um erro interno ao processar a solicitação de áudio para áudio: " emsg ""
  simp [a2aInternalDetail, strAppend_empty]

/-- Claim C1: for either endpoint, a FileNotFoundError raised by the invoked
pipeline function yields a 400 response whose detail contains the offending
model identifier (and, for the audio-to-audio endpoint, also the whisper
preset name), while any other exception raised by the pipeline yields a 500
response whose detail contains the stringified exception message. -/
theorem C1_error_mapping {W : Type} (T : TTSEngine W) (Wh : WhisperEngine)
    (text model_name rid : String) (spk : Int) (speed : Rat) (oe : Bool)
    (fname tts_model msize rid2 : String) (spk2 : Int) (speed2 : Rat)
    (saveR : Except PyExc Unit) (ei eo : Bool) :
    (∀ m, text_to_speech T model_name text spk (ttsOutputPath rid) speed =
            .error (.fileNotFound m) →
       api_text_to_audio T text model_name spk speed rid oe =
         .httpError 400 (ttsNotFoundDetail model_name m) ∧
       strContains (ttsNotFoundDetail model_name m) model_name) ∧
    (∀ e, (∀ m, e ≠ PyExc.fileNotFound m) →
       text_to_speech T model_name text spk (ttsOutputPath rid) speed = .error e →
       api_text_to_audio T text model_name spk speed rid oe =
         .httpError 500 (ttsInternalDetail (strOfExc e)) ∧
       strContains (ttsInternalDetail (strOfExc e)) (strOfExc e)) ∧
    (∀ m, saveR = .ok () → ei = true →
       (audio_to_audio Wh T (a2aInputPath rid2 fname) tts_model spk2
          (a2aOutputPath rid2) speed2 msize).1 = .error (.fileNotFound m) →
       (api_audio_to_audio Wh T fname tts_model spk2 speed2 msize rid2 saveR ei eo).1 =
         .httpError 400 (a2aNotFoundDetail tts_model msize m) ∧
       strContains (a2aNotFoundDetail tts_model msize m) tts_model ∧
       strContains (a2aNotFoundDetail tts_model msize m) msize) ∧
    (∀ e, (∀ m, e ≠ PyExc.fileNotFound m) → saveR = .ok () → ei = true →
       (audio_to_audio Wh T (a2aInputPath rid2 fname) tts_model spk2
          (a2aOutputPath rid2) speed2 msize).1 = .error e →
       (api_audio_to_audio Wh T fname tts_model spk2 speed2 msize rid2 saveR ei eo).1 =
         .httpError 500 (a2aInternalDetail (strOfExc e)) ∧
       strContains (a2aInternalDetail (strOfExc e)) (strOfExc e)) := by
  refine ⟨?_, ?_, ?_, ?_⟩
  · intro m h
    refine ⟨?_, ttsNotFoundDetail_contains_model model_name m⟩
    simp [api_text_to_audio, h, tryExceptText]
  · intro e hfnf h
    refine ⟨?_, ttsInternalDetail_contains_msg (strOfExc e)⟩
    rcases e with m | ⟨st, d⟩ | m
    · exact absurd rfl (hfnf m)
    · simp [api_text_to_audio, h, tryExceptText]
    · simp [api_text_to_audio, h, tryExceptText]
  · intro m hsave hei h
    subst hsave; subst hei
    refine ⟨?_, a2aNotFoundDetail_contains_model tts_model msize m,
            a2aNotFoundDetail_contains_msize tts_model msize m⟩
    simp [api_audio_to_audio, a2aBody, h, tryExceptA2A]
  · intro e hfnf hsave hei h
    subst hsave; subst hei
    refine ⟨?_, a2aInternalDetail_contains_msg (strOfExc e)⟩
    rcases e with m | ⟨st, d⟩ | m
    · exact absurd rfl (hfnf m)
    · simp [api_audio_to_audio, a2aBody, h, tryExceptA2A]
    · simp [api_audio_to_audio, a2aBody, h, tryExceptA2A]

/-- Witness for C1: concrete engines raising FileNotFoundError and a generic
exception against both endpoints. -/
theorem C1_witness :
    api_text_to_audio engineFNF "hi" "m1" 0 1 "r" true =
      Response.httpError 400 (ttsNotFoundDetail "m1" "nf") ∧
    api_text_to_audio engineBoom "hi" "m1" 0 1 "r" true =
      Response.httpError 500 (ttsInternalDetail "boom") ∧
    (api_audio_to_audio whisperFNF engineOK "f.mp3" "m2" 0 1 "tiny" "r"
        (.ok ()) true true).1 =
      Response.httpError 400 (a2aNotFoundDetail "m2" "tiny" "nf") ∧
    (api_audio_to_audio whisperOK engineBoom "f.mp3" "m2" 0 1 "tiny" "r"
        (.ok ()) true true).1 =
      Response.httpError 500 (a2aInternalDetail "boom") := by
  refine ⟨?_, ?_, ?_, ?_⟩
  · exact (C1_error_mapping engineFNF whisperFNF "hi" "m1" "r" 0 1 true
      "f.mp3" "m2" "tiny" "r" 0 1 (.ok ()) true true).1 "nf" rfl |>.1
  · exact (C1_error_mapping engineBoom whisperFNF "hi" "m1" "r" 0 1 true
      "f.mp3" "m2" "tiny" "r" 0 1 (.ok ()) true true).2.1 (.other "boom")
      (fun m h => PyExc.noConfusion h) rfl |>.1
  · exact (C1_error_mapping engineOK whisperFNF "hi" "m1" "r" 0 1 true
      "f.mp3" "m2" "tiny" "r" 0 1 (.ok ()) true true).2.2.1 "nf" rfl rfl rfl |>.1
  · exact (C1_error_mapping engineBoom whisperOK "hi" "m1" "r" 0 1 true
      "f.mp3" "m2" "tiny" "r" 0 1 (.ok ()) true true).2.2.2 (.other "boom")
      (fun m h => PyExc.noConfusion h) rfl rfl rfl |>.1

/-- Claim C2: for either endpoint, when the pipeline call returns without
raising but the expected output file is absent at the generated output path,
the endpoint fails with an HTTP 500 server error and in particular not with
the 400 client error used for not-found resources. -/
theorem C2_missing_output_is_500 {W : Type} (T : TTSEngine W) (Wh : WhisperEngine)
    (text model_name rid : String) (spk : Int) (speed : Rat) (oe : Bool)
    (fname tts_model msize rid2 : String) (spk2 : Int) (speed2 : Rat)
    (saveR : Except PyExc Unit) (ei eo : Bool) :
    (text_to_speech T model_name text spk (ttsOutputPath rid) speed = .ok () →
     oe = false →
       (∃ d, api_text_to_audio T text model_name spk speed rid oe = .httpError 500 d) ∧
       (∀ d, api_text_to_audio T text model_name spk speed rid oe ≠ .httpError 400 d)) ∧
    (saveR = .ok () → ei = true →
     (audio_to_audio Wh T (a2aInputPath rid2 fname) tts_model spk2
        (a2aOutputPath rid2) speed2 msize).1 = .ok () →
     eo = false →
       (∃ d, (api_audio_to_audio Wh T fname tts_model spk2 speed2 msize rid2
                saveR ei eo).1 = .httpError 500 d) ∧
       (∀ d, (api_audio_to_audio Wh T fname tts_model spk2 speed2 msize rid2
                saveR ei eo).1 ≠ .httpError 400 d)) := by
  constructor
  · intro h1 h2
    have hapi : api_text_to_audio T text model_name spk speed rid oe =
        .httpError 500 (ttsInternalDetail (strOfExc
          (.httpExc 500 "Falha ao gerar o arquivo de áudio a partir do texto."))) := by
      simp [api_text_to_audio, h1, h2, tryExceptText]
    rw [hapi]
    refine ⟨⟨_, rfl⟩, ?_⟩
    intro d h
    simp at h
  · intro hsave hei h1 h2
    subst hsave; subst hei
    have hapi : (api_audio_to_audio Wh T fname tts_model spk2 speed2 msize rid2
        (.ok ()) true eo).1 =
        .httpError 500 (a2aInternalDetail (strOfExc
          (.httpExc 500 "Falha ao processar e gerar o novo arquivo de áudio."))) := by
      simp [api_audio_to_audio, a2aBody, h1, h2, tryExceptA2A]
    rw [hapi]
    refine ⟨⟨_, rfl⟩, ?_⟩
    intro d h
    simp at h

/-- Witness for C2: engines that succeed while the output file is reported
absent, for both endpoints. -/
theorem C2_witness :
    (∃ d, api_text_to_audio engineOK "hi" "m1" 0 1 "r" false = Response.httpError 500 d) ∧
    (∃ d, (api_audio_to_audio whisperOK engineOK "f.mp3" "m2" 0 1 "tiny" "r"
            (.ok ()) true false).1 = Response.httpError 500 d) := by
  constructor
  · exact ((C2_missing_output_is_500 engineOK whisperOK "hi" "m1" "r" 0 1 false
      "f.mp3" "m2" "tiny" "r" 0 1 (.ok ()) true false).1 rfl rfl).1
  · exact ((C2_missing_output_is_500 engineOK whisperOK "hi" "m1" "r" 0 1 false
      "f.mp3" "m2" "tiny" "r" 0 1 (.ok ()) true false).2 rfl rfl (by decide) rfl).1

/-- Claim C10: an HTTPException raised inside the try block of either endpoint
(the 500 for a missing output file after a successful pipeline call, and the
500 for a failed input-file save in the audio-to-audio endpoint) is caught by
that endpoint's generic `except Exception` handler and re-raised as a new
HTTP 500 whose detail is the generic internal-error text wrapping the
stringified original exception, so the originally raised detail never reaches
the caller verbatim. -/
theorem C10_inner_httpexception_wrapped {W : Type} (T : TTSEngine W) (Wh : WhisperEngine)
    (text model_name rid : String) (spk : Int) (speed : Rat) (oe : Bool)
    (fname tts_model msize rid2 : String) (spk2 : Int) (speed2 : Rat)
    (saveR : Except PyExc Unit) (ei eo : Bool) :
    (text_to_speech T model_name text spk (ttsOutputPath rid) speed = .ok () →
     oe = false →
       api_text_to_audio T text model_name spk speed rid oe =
         .httpError 500 (ttsInternalDetail (strOfExc
           (.httpExc 500 "Falha ao gerar o arquivo de áudio a partir do texto."))) ∧
       ttsInternalDetail (strOfExc
           (.httpExc 500 "Falha ao gerar o arquivo de áudio a partir do texto.")) ≠
         "Falha ao gerar o arquivo de áudio a partir do texto.") ∧
    (saveR = .ok () → ei = false →
       (api_audio_to_audio Wh T fname tts_model spk2 speed2 msize rid2
          saveR ei eo).1 =
         .httpError 500 (a2aInternalDetail (strOfExc
           (.httpExc 500 "Falha ao salvar o arquivo de áudio de entrada."))) ∧
       a2aInternalDetail (strOfExc
           (.httpExc 500 "Falha ao salvar o arquivo de áudio de entrada.")) ≠
         "Falha ao salvar o arquivo de áudio de entrada.") ∧
    (saveR = .ok () → ei = true →
     (audio_to_audio Wh T (a2aInputPath rid2 fname) tts_model spk2
        (a2aOutputPath rid2) speed2 msize).1 = .ok () →
     eo = false →
       (api_audio_to_audio Wh T fname tts_model spk2 speed2 msize rid2
          saveR ei eo).1 =
         .httpError 500 (a2aInternalDetail (strOfExc
           (.httpExc 500 "Falha ao processar e gerar o novo arquivo de áudio."))) ∧
       a2aInternalDetail (strOfExc
           (.httpExc 500 "Falha ao processar e gerar o novo arquivo de áudio.")) ≠
         "Falha ao processar e gerar o novo arquivo de áudio.") := by
  refine ⟨?_, ?_, ?_⟩
  · intro h1 h2
    refine ⟨?_, by decide⟩
    simp [api_text_to_audio, h1, h2, tryExceptText]
  · intro hsave hei
    subst hsave; subst hei
    refine ⟨?_, by decide⟩
    simp [api_audio_to_audio, a2aBody, tryExceptA2A]
  · intro hsave hei h1 h2
    subst hsave; subst hei
    refine ⟨?_, by decide⟩
    simp [api_audio_to_audio, a2aBody, h1, h2, tryExceptA2A]

/-- Witness for C10: the three inner HTTPException sites at concrete inputs. -/
theorem C10_witness :
    api_text_to_audio engineOK "hi" "m1" 0 1 "r" false =
      Response.httpError 500 (ttsInternalDetail
        "500: Falha ao gerar o arquivo de áudio a partir do texto.") ∧
    (api_audio_to_audio whisperOK engineOK "f.mp3" "m2" 0 1 "tiny" "r"
        (.ok ()) false true).1 =
      Response.httpError 500 (a2aInternalDetail
        "500: Falha ao salvar o arquivo de áudio de entrada.") ∧
    (api_audio_to_audio whisperOK engineOK "f.mp3" "m2" 0 1 "tiny" "r"
        (.ok ()) true false).1 =
      Response.httpError 500 (a2aInternalDetail
        "500: Falha ao processar e gerar o novo arquivo de áudio.") := by
  refine ⟨?_, ?_, ?_⟩
  · exact ((C10_inner_httpexception_wrapped engineOK whisperOK "hi" "m1" "r" 0 1 false
      "f.mp3" "m2" "tiny" "r" 0 1 (.ok ()) false true).1 rfl rfl).1
  · exact ((C10_inner_httpexception_wrapped engineOK whisperOK "hi" "m1" "r" 0 1 false
      "f.mp3" "m2" "tiny" "r" 0 1 (.ok ()) false true).2.1 rfl rfl).1
  · exact ((C10_inner_httpexception_wrapped engineOK whisperOK "hi" "m1" "r" 0 1 false
      "f.mp3" "m2" "tiny" "r" 0 1 (.ok ()) true false).2.2 rfl rfl (by decide) rfl).1

/-- Claim C9: for an audio-to-audio request that fails after the uploaded
bytes were persisted to the temporary input file, no rollback happens: the
endpoint performs no delete action at all, the write of the input file is in
its action trace, and replaying the trace leaves the input file on disk. -/
theorem C9_no_rollback_of_input {W : Type} (Wh : WhisperEngine) (T : TTSEngine W)
    (fname tts_model msize rid : String) (spk : Int) (speed : Rat)
    (saveR : Except PyExc Unit) (ei eo : Bool)
    (hsave : saveR = .ok ())
    (hfail : ∃ st d, (api_audio_to_audio Wh T fname tts_model spk speed msize rid
        saveR ei eo).1 = Response.httpError st d) :
    FSAction.write (a2aInputPath rid fname) ∈
      (api_audio_to_audio Wh T fname tts_model spk speed msize rid saveR ei eo).2 ∧
    (∀ p, FSAction.delete p ∉
      (api_audio_to_audio Wh T fname tts_model spk speed msize rid saveR ei eo).2) ∧
    a2aInputPath rid fname ∈
      applyActs [] (api_audio_to_audio Wh T fname tts_model spk speed msize rid saveR ei eo).2 := by
  have hacts : (api_audio_to_audio Wh T fname tts_model spk speed msize rid saveR ei eo).2 =
      [FSAction.write (a2aInputPath rid fname)] := by
    subst hsave
    cases hei : ei with
    | false => simp [api_audio_to_audio, a2aBody]
    | true =>
      rcases hp : (audio_to_audio Wh T (a2aInputPath rid fname) tts_model spk
          (a2aOutputPath rid) speed msize).1 with e | u
      · simp [api_audio_to_audio, a2aBody, hp]
      · cases heo : eo with
        | false => simp [api_audio_to_audio, a2aBody, hp]
        | true => simp [api_audio_to_audio, a2aBody, hp]
  rw [hacts]
  refine ⟨by simp, ?_, by simp [applyActs]⟩
  intro p
  simp

/-- Witness for C9: a concrete failing request (the TTS load raises) whose
temporary input file was successfully saved and remains on disk. -/
theorem C9_witness :
    (∃ st d, (api_audio_to_audio whisperOK engineBoom "f.mp3" "m" 0 1 "tiny" "r"
        (.ok ()) true true).1 = Response.httpError st d) ∧
    a2aInputPath "r" "f.mp3" ∈
      applyActs [] (api_audio_to_audio whisperOK engineBoom "f.mp3" "m" 0 1 "tiny" "r"
        (.ok ()) true true).2 := by
  have hf : ∃ st d, (api_audio_to_audio whisperOK engineBoom "f.mp3" "m" 0 1 "tiny" "r"
      (.ok ()) true true).1 = Response.httpError st d :=
    ⟨500, a2aInternalDetail "boom", by decide⟩
  exact ⟨hf, (C9_no_rollback_of_input whisperOK engineBoom "f.mp3" "m" "tiny" "r" 0 1
    (.ok ()) true true rfl hf).2.2⟩

theorem pyStrip_data (s : String) :
    (pyStrip s).data =
      ((s.data.dropWhile isPySpace).reverse.dropWhile isPySpace).reverse := rfl

theorem dropWhile_head_not (p : Char → Bool) (l : List Char) :
    ∀ c, (l.dropWhile p).head? = some c → p c = false := by
  induction l with
  | nil => intro c h; simp at h
  | cons a t ih =>
    intro c h
    rw [List.dropWhile_cons] at h
    by_cases hpa : p a
    · rw [if_pos hpa] at h; exact ih c h
    · rw [if_neg hpa] at h
      simp only [List.head?_cons, Option.some.injEq] at h
      subst h
      simpa using hpa

theorem pyStrip_noSurroundingSpace (s : String) : noSurroundingSpace (pyStrip s) := by
  refine ⟨?_, ?_⟩
  · intro c h
    rw [pyStrip_data, List.head?_reverse] at h
    obtain ⟨u, hu⟩ := List.dropWhile_suffix (l := (s.data.dropWhile isPySpace).reverse)
      (p := isPySpace)
    have hne : (s.data.dropWhile isPySpace).reverse.dropWhile isPySpace ≠ [] := by
      intro hq; rw [hq] at h; simp at h
    have h2 : ((s.data.dropWhile isPySpace).reverse).getLast? = some c := by
      rw [← hu, List.getLast?_append_of_ne_nil u hne]; exact h
    rw [List.getLast?_reverse] at h2
    exact dropWhile_head_not isPySpace s.data c h2
  · intro c h
    rw [pyStrip_data, List.getLast?_reverse] at h
    exact dropWhile_head_not isPySpace _ c h

/-- Claim C7: transcribe_with_whisper returns the pair of the recognized text
with surrounding whitespace stripped and the detected language identifier,
for every transcription result produced by the recognition engine; the
returned text has no leading or trailing whitespace. -/
theorem C7_transcribe_returns_trimmed (Wh : WhisperEngine) (msize path t l : String)
    (hload : Wh.load_model msize = .ok ())
    (htr : Wh.transcribe msize path = .ok (t, l)) :
    (transcribe_with_whisper Wh msize path).1 = .ok (pyStrip t, l) ∧
    noSurroundingSpace (pyStrip t) := by
  refine ⟨?_, pyStrip_noSurroundingSpace t⟩
  simp [transcribe_with_whisper, hload, htr]

/-- Witness for C7: a concrete engine returning "  hello  " is surfaced as
"hello" together with the language tag. -/
theorem C7_witness :
    whisperOK.transcribe "tiny" "a.wav" = .ok ("  hello  ", "en") ∧
    (transcribe_with_whisper whisperOK "tiny" "a.wav").1 = .ok ("hello", "en") := by
  refine ⟨rfl, ?_⟩
  have h := (C7_transcribe_returns_trimmed whisperOK "tiny" "a.wav" "  hello  " "en" rfl rfl).1
  rw [h]
  decide

theorem append_ne_of_getElem? (A B s t : List Char) (i : Nat)
    (hA : i < A.length) (hB : i < B.length) (h : A[i]? ≠ B[i]?) : A ++ s ≠ B ++ t := by
  intro he
  apply h
  rw [← List.getElem?_append_left hA, ← List.getElem?_append_left hB, he]

theorem append_mid_ne (A x y s t : List Char) (hlen : x.length = y.length) (hxy : x ≠ y) :
    A ++ (x ++ s) ≠ A ++ (y ++ t) := by
  intro h
  exact hxy (List.append_inj (List.append_cancel_left h) hlen).1

theorem ospJoin_temp (b : String) (c : Char) (hb : b.data.head? = some c) (hc : c ≠ '/') :
    ospJoin TEMP_DIR b = TEMP_DIR ++ "/" ++ b := by
  unfold ospJoin
  rw [hb, if_neg (by simpa using hc), if_neg (by decide)]

theorem ttsOutputPath_data (rid : String) :
    (ttsOutputPath rid).data =
      (TEMP_DIR ++ "/" ++ "tts_output_").data ++ (rid.data ++ ".wav".data) := by
  rw [ttsOutputPath, ospJoin_temp (ttsOutputFilename rid) 't' rfl (by decide)]
  simp [ttsOutputFilename, strData_append]

theorem a2aInputPath_data (rid f : String) :
    (a2aInputPath rid f).data =
      (TEMP_DIR ++ "/" ++ "input_").data ++ (rid.data ++ (splitextExt f).data) := by
  rw [a2aInputPath, ospJoin_temp (a2aInputFilename rid f) 'i' rfl (by decide)]
  simp [a2aInputFilename, strData_append]

theorem a2aOutputPath_data (rid : String) :
    (a2aOutputPath rid).data =
      (TEMP_DIR ++ "/" ++ "a2a_output_").data ++ (rid.data ++ ".wav".data) := by
  rw [a2aOutputPath, ospJoin_temp (a2aOutputFilename rid) 'a' rfl (by decide)]
  simp [a2aOutputFilename, strData_append]

theorem tts_ne_input (r1 r2 f : String) : ttsOutputPath r1 ≠ a2aInputPath r2 f := by
  intro h
  have hd := congrArg String.data h
  rw [ttsOutputPath_data, a2aInputPath_data] at hd
  exact append_ne_of_getElem? _ _ _ _ 19 (by decide) (by decide) (by decide) hd

theorem tts_ne_a2aOut (r1 r2 : String) : ttsOutputPath r1 ≠ a2aOutputPath r2 := by
  intro h
  have hd := congrArg String.data h
  rw [ttsOutputPath_data, a2aOutputPath_data] at hd
  exact append_ne_of_getElem? _ _ _ _ 19 (by decide) (by decide) (by decide) hd

theorem input_ne_a2aOut (r1 f r2 : String) : a2aInputPath r1 f ≠ a2aOutputPath r2 := by
  intro h
  have hd := congrArg String.data h
  rw [a2aInputPath_data, a2aOutputPath_data] at hd
  exact append_ne_of_getElem? _ _ _ _ 19 (by decide) (by decide) (by decide) hd

theorem tts_inj_ne (r1 r2 : String) (hlen : r1.data.length = r2.data.length)
    (hne : r1 ≠ r2) : ttsOutputPath r1 ≠ ttsOutputPath r2 := by
  intro h
  have hd := congrArg String.data h
  rw [ttsOutputPath_data, ttsOutputPath_data] at hd
  exact append_mid_ne _ _ _ _ _ hlen (fun he => hne (strExt _ _ he)) hd

theorem input_inj_ne (r1 r2 f1 f2 : String) (hlen : r1.data.length = r2.data.length)
    (hne : r1 ≠ r2) : a2aInputPath r1 f1 ≠ a2aInputPath r2 f2 := by
  intro h
  have hd := congrArg String.data h
  rw [a2aInputPath_data, a2aInputPath_data] at hd
  exact append_mid_ne _ _ _ _ _ hlen (fun he => hne (strExt _ _ he)) hd

theorem a2aOut_inj_ne (r1 r2 : String) (hlen : r1.data.length = r2.data.length)
    (hne : r1 ≠ r2) : a2aOutputPath r1 ≠ a2aOutputPath r2 := by
  intro h
  have hd := congrArg String.data h
  rw [a2aOutputPath_data, a2aOutputPath_data] at hd
  exact append_mid_ne _ _ _ _ _ hlen (fun he => hne (strExt _ _ he)) hd

/-- Claim C8: for two requests with distinct request identifiers (of equal
length, as uuid4 identifiers always are), all temporary paths the endpoints
generate — the text-to-audio output, the audio-to-audio input and the
audio-to-audio output of each request — are pairwise distinct, so one
request's temporary files cannot be overwritten by the other's; within a
single request the input and output paths also differ. -/
theorem C8_temp_paths_pairwise_distinct (rid1 rid2 f1 f2 : String)
    (hne : rid1 ≠ rid2) (hlen : rid1.data.length = rid2.data.length) :
    List.Pairwise (· ≠ ·)
      [ttsOutputPath rid1, a2aInputPath rid1 f1, a2aOutputPath rid1,
       ttsOutputPath rid2, a2aInputPath rid2 f2, a2aOutputPath rid2] := by
  have e3 : ttsOutputPath rid1 ≠ ttsOutputPath rid2 := tts_inj_ne rid1 rid2 hlen hne
  have e8 : a2aInputPath rid1 f1 ≠ a2aInputPath rid2 f2 := input_inj_ne rid1 rid2 f1 f2 hlen hne
  have e12 : a2aOutputPath rid1 ≠ a2aOutputPath rid2 := a2aOut_inj_ne rid1 rid2 hlen hne
  refine List.Pairwise.cons ?_ (List.Pairwise.cons ?_ (List.Pairwise.cons ?_
    (List.Pairwise.cons ?_ (List.Pairwise.cons ?_
      (List.Pairwise.cons ?_ List.Pairwise.nil)))))
  · intro b hb
    simp only [List.mem_cons, List.not_mem_nil, or_false] at hb
    rcases hb with rfl | rfl | rfl | rfl | rfl
    · exact tts_ne_input rid1 rid1 f1
    · exact tts_ne_a2aOut rid1 rid1
    · exact e3
    · exact tts_ne_input rid1 rid2 f2
    · exact tts_ne_a2aOut rid1 rid2
  · intro b hb
    simp only [List.mem_cons, List.not_mem_nil, or_false] at hb
    rcases hb with rfl | rfl | rfl | rfl
    · exact input_ne_a2aOut rid1 f1 rid1
    · exact fun h => tts_ne_input rid2 rid1 f1 h.symm
    · exact e8
    · exact input_ne_a2aOut rid1 f1 rid2
  · intro b hb
    simp only [List.mem_cons, List.not_mem_nil, or_false] at hb
    rcases hb with rfl | rfl | rfl
    · exact fun h => tts_ne_a2aOut rid2 rid1 h.symm
    · exact fun h => input_ne_a2aOut rid2 f2 rid1 h.symm
    · exact e12
  · intro b hb
    simp only [List.mem_cons, List.not_mem_nil, or_false] at hb
    rcases hb with rfl | rfl
    · exact tts_ne_input rid2 rid2 f2
    · exact tts_ne_a2aOut rid2 rid2
  · intro b hb
    simp only [List.mem_cons, List.not_mem_nil, or_false] at hb
    subst hb
    exact input_ne_a2aOut rid2 f2 rid2
  · intro b hb
    exact absurd hb (List.not_mem_nil b)

/-- Witness for C8 at two concrete equal-length distinct request ids. -/
theorem C8_witness :
    ("aa" : String) ≠ "ab" ∧
    List.Pairwise (· ≠ ·)
      [ttsOutputPath "aa", a2aInputPath "aa" "x.mp3", a2aOutputPath "aa",
       ttsOutputPath "ab", a2aInputPath "ab" "y.ogg", a2aOutputPath "ab"] := by
  refine ⟨by decide, ?_⟩
  exact C8_temp_paths_pairwise_distinct "aa" "ab" "x.mp3" "y.ogg" (by decide) (by decide)

/-- Claim C3: in the audio_to_audio pipeline, when transcription succeeds,
(i) the call trace starts with the two transcription events and every
synthesis or TTS-load event occurs only in the remainder, so transcription
strictly precedes synthesis; every synthesis call consumes exactly the
transcription's (stripped) text with the caller-supplied speaker and speed,
and every TTS load uses exactly the caller-supplied model identifier;
(ii) whenever the TTS model loads, the synthesis call on the transcribed text
is in the trace — with no special-casing, so this holds in particular when
that text is empty; (iii) the detected source language is discarded: two
whisper engines agreeing on load behaviour and on the text component of every
transcription (but possibly differing on the language) give identical
pipeline results and traces. -/
theorem C3_pipeline_order_and_lang_discard (W : Type) (Wh Wh2 : WhisperEngine)
    (T : TTSEngine W) (input tts_model : String) (spk : Int) (out : String)
    (speed : Rat) (msize t l : String)
    (hload : Wh.load_model msize = .ok ())
    (htr : Wh.transcribe msize input = .ok (t, l)) :
    (∃ rest, (audio_to_audio Wh T input tts_model spk out speed msize).2 =
        [A2AEvent.whisperLoadCall msize, A2AEvent.transcribeCall msize input] ++ rest ∧
      (∀ txt s sp, A2AEvent.synthCall txt s sp ∈ rest →
          txt = pyStrip t ∧ s = spk ∧ sp = speed) ∧
      (∀ m, A2AEvent.ttsLoadCall m ∈ rest → m = tts_model)) ∧
    (T.load tts_model = .ok () →
      A2AEvent.synthCall (pyStrip t) spk speed ∈
        (audio_to_audio Wh T input tts_model spk out speed msize).2) ∧
    (Wh2.load_model = Wh.load_model →
      (∀ ms p, exceptFst (Wh2.transcribe ms p) = exceptFst (Wh.transcribe ms p)) →
      audio_to_audio Wh2 T input tts_model spk out speed msize =
        audio_to_audio Wh T input tts_model spk out speed msize) := by
  have htw : transcribe_with_whisper Wh msize input =
      (.ok (pyStrip t, l),
       [A2AEvent.whisperLoadCall msize, A2AEvent.transcribeCall msize input]) := by
    simp [transcribe_with_whisper, hload, htr]
  refine ⟨?_, ?_, ?_⟩
  · rcases hL : T.load tts_model with e | u
    · refine ⟨[A2AEvent.ttsLoadCall tts_model], ?_, ?_, ?_⟩
      · simp [audio_to_audio, htw, hL]
      · intro txt s sp hmem; simp at hmem
      · intro m hmem; simpa using hmem
    · rcases hS : T.tts tts_model (pyStrip t) spk speed with e | w
      · refine ⟨[A2AEvent.ttsLoadCall tts_model,
                 A2AEvent.synthCall (pyStrip t) spk speed], ?_, ?_, ?_⟩
        · simp [audio_to_audio, htw, hL, hS]
        · intro txt s sp hmem; simpa using hmem
        · intro m hmem; simpa using hmem
      · refine ⟨[A2AEvent.ttsLoadCall tts_model,
                 A2AEvent.synthCall (pyStrip t) spk speed,
                 A2AEvent.saveWavCall out], ?_, ?_, ?_⟩
        · rcases hW : T.save_wav tts_model w out with e2 | u2
          · simp [audio_to_audio, htw, hL, hS, hW]
          · simp [audio_to_audio, htw, hL, hS, hW]
        · intro txt s sp hmem; simpa using hmem
        · intro m hmem; simpa using hmem
  · intro hLok
    rcases hS : T.tts tts_model (pyStrip t) spk speed with e | w
    · simp [audio_to_audio, htw, hLok, hS]
    · rcases hW : T.save_wav tts_model w out with e2 | u2
      · simp [audio_to_audio, htw, hLok, hS, hW]
      · simp [audio_to_audio, htw, hLok, hS, hW]
  · intro hL2 hT2
    have h2 := hT2 msize input
    rw [htr] at h2
    rcases hx : Wh2.transcribe msize input with e | p
    · rw [hx] at h2
      simp [exceptFst] at h2
    · rcases p with ⟨t2, l2⟩
      rw [hx] at h2
      simp [exceptFst] at h2
      have htw2 : transcribe_with_whisper Wh2 msize input =
          (.ok (pyStrip t, l2),
           [A2AEvent.whisperLoadCall msize, A2AEvent.transcribeCall msize input]) := by
        simp [transcribe_with_whisper, hL2, hload, hx, h2]
      simp [audio_to_audio, htw, htw2]

/-- Witness for C3: a whisper engine producing whitespace-only text; the
pipeline still attempts synthesis with the resulting empty string. -/
theorem C3_witness :
    whisperWS.transcribe "tiny" "in.wav" = .ok ("  ", "en") ∧
    pyStrip "  " = "" ∧
    A2AEvent.synthCall "" 0 1 ∈
      (audio_to_audio whisperWS engineOK "in.wav" "m" 0 "out.wav" 1 "tiny").2 := by
  refine ⟨rfl, by decide, ?_⟩
  have h := (C3_pipeline_order_and_lang_discard Unit whisperWS whisperWS engineOK
    "in.wav" "m" 0 "out.wav" 1 "tiny" "  " "en" rfl rfl).2.1 rfl
  have hps : pyStrip "  " = "" := by decide
  rw [hps] at h
  exact h
